import Mathlib

/-
Verification of the code-extraction and validation pipeline of the
Terraform Code Assistant (src/app.py), as a shallow embedding.

Strings are modelled as `List Char`.  Python `str.strip`, the regex
character class for whitespace, and the fenced-block regex
(three backticks, an optional alphabetic language tag, a newline, a lazily
captured body, a newline, three backticks) are embedded as executable
functions below, following Python semantics (leftmost match position,
maximal tag run, shortest lazy body).
-/

namespace TerraformAssistant

/-- Backtick character, written by code point to keep it out of the source text. -/
def bq : Char := Char.ofNat 96

/-- Non-breaking space (U+00A0). -/
def nbsp : Char := Char.ofNat 160

/-- Left curly double quote (U+201C), the first pattern of the replace chain. -/
def ldq : Char := Char.ofNat 8220

/-- Right curly double quote (U+201D). -/
def rdq : Char := Char.ofNat 8221

/-- Right curly single quote (U+2019). -/
def rsq : Char := Char.ofNat 8217

/-- Em dash (U+2014). -/
def emDash : Char := Char.ofNat 8212

/-- Straight ASCII single quote (U+0027). -/
def sq : Char := Char.ofNat 39

/-- ASCII letter, the regex class for the optional language tag. -/
def isAsciiAlpha (c : Char) : Bool := c.isAlpha

/-- Code points accepted as whitespace by Python 3 for `str.strip` and for the
whitespace class of the `re` module on `str` patterns. -/
def pySpaceCodes : List Nat :=
  [9, 10, 11, 12, 13, 28, 29, 30, 31, 32, 133, 160, 5760,
   8192, 8193, 8194, 8195, 8196, 8197, 8198, 8199, 8200, 8201, 8202,
   8232, 8233, 8239, 8287, 12288]

/-- Python whitespace test on a single character. -/
def pyIsSpace (c : Char) : Bool := pySpaceCodes.contains c.toNat

/-- Left part of Python `str.strip`. -/
def trimL (s : List Char) : List Char := s.dropWhile pyIsSpace

/-- Right part of Python `str.strip`. -/
def trimR (s : List Char) : List Char := (s.reverse.dropWhile pyIsSpace).reverse

/-- Python `str.strip`: drop whitespace from both ends. -/
def pyStrip (s : List Char) : List Char := trimR (trimL s)

/-! The sanitizer: line 159 (and 261-262) of src/app.py chain four
`str.replace` calls, each replacing one character by one character. -/

/-- Single-character substitution used by each `str.replace` of the chain. -/
def repl (a b c : Char) : Char := if c == a then b else c

/-- Python `str.replace` for a single-character pattern and replacement. -/
def replaceAll (a b : Char) (s : List Char) : List Char := s.map (repl a b)

/-- Sanitizer from src/app.py line 159: curly double quotes to straight double
quote, curly single quote to straight single quote, em dash to a hyphen. -/
def sanitize (s : List Char) : List Char :=
  replaceAll emDash '-' (replaceAll rsq sq (replaceAll rdq '"' (replaceAll ldq '"' s)))

/-- Character-level description of the whole replace chain. -/
def sanChar (c : Char) : Char :=
  if c == ldq then '"'
  else if c == rdq then '"'
  else if c == rsq then sq
  else if c == emDash then '-'
  else c

theorem sanitize_eq_map (s : List Char) : sanitize s = s.map sanChar := by
  unfold sanitize replaceAll
  simp only [List.map_map]
  have hfun : (repl emDash '-' ∘ repl rsq sq ∘ repl rdq '"' ∘ repl ldq '"') = sanChar := by
    funext c
    by_cases h1 : c = ldq
    · subst h1; decide
    by_cases h2 : c = rdq
    · subst h2; decide
    by_cases h3 : c = rsq
    · subst h3; decide
    by_cases h4 : c = emDash
    · subst h4; decide
    have e1 : (c == ldq) = false := by simp [h1]
    have e2 : (c == rdq) = false := by simp [h2]
    have e3 : (c == rsq) = false := by simp [h3]
    have e4 : (c == emDash) = false := by simp [h4]
    simp [repl, sanChar, e1, e2, e3, e4]
  rw [hfun]

theorem sanChar_idem (c : Char) : sanChar (sanChar c) = sanChar c := by
  by_cases h1 : c = ldq
  · subst h1; decide
  by_cases h2 : c = rdq
  · subst h2; decide
  by_cases h3 : c = rsq
  · subst h3; decide
  by_cases h4 : c = emDash
  · subst h4; decide
  have hc : sanChar c = c := by
    have e1 : (c == ldq) = false := by simp [h1]
    have e2 : (c == rdq) = false := by simp [h2]
    have e3 : (c == rsq) = false := by simp [h3]
    have e4 : (c == emDash) = false := by simp [h4]
    simp [sanChar, e1, e2, e3, e4]
  rw [hc, hc]

/-- Input of the spec example for the sanitizer: left curly quote, a, right
curly quote, space, em dash, space, b, curly apostrophe, s. -/
def c4SpecInput : List Char := [ldq, 'a', rdq, ' ', emDash, ' ', 'b', rsq, 's']

/-- Output the spec claims for the example (em dash doubled to two hyphens). -/
def c4ClaimedOutput : List Char := "\"a\" -- b".toList ++ [sq, 's']

/-- Output the code actually produces for the example (single hyphen). -/
def c4ActualOutput : List Char := "\"a\" - b".toList ++ [sq, 's']

/-- Latin small letter e with acute accent, a non-ASCII character that is not
in the replace chain. -/
def eAcute : Char := Char.ofNat 233

/-- C4 counterexample: the sanitizer maps the spec example to a single hyphen,
not the claimed double hyphen, and leaves other non-ASCII characters in
place rather than dropping them. -/
theorem sanitize_spec_example_refuted :
    sanitize c4SpecInput ≠ c4ClaimedOutput ∧ sanitize [eAcute] = [eAcute] := by
  constructor
  · decide
  · decide

/-- C4 (amended): the sanitizer is exactly the character-wise map that sends
the two curly double quotes to a straight double quote, the curly single
quote to a straight single quote, the em dash to a single hyphen, and leaves
every other character (ASCII or not) unchanged; on the spec example it yields
the single-hyphen output, and on the empty string it yields the empty string. -/
theorem sanitize_charwise :
    (∀ s : List Char, sanitize s = s.map sanChar) ∧
    sanitize c4SpecInput = c4ActualOutput ∧ sanitize [] = [] := by
  refine ⟨sanitize_eq_map, by decide, by decide⟩

/-- C5: the sanitizer is idempotent. -/
theorem sanitize_idem (s : List Char) : sanitize (sanitize s) = sanitize s := by
  rw [sanitize_eq_map, sanitize_eq_map, List.map_map]
  exact List.map_congr_left fun c _ => sanChar_idem c

/-! Fenced-block extraction.  Lines 190-204 (and 287-296) of src/app.py run
the regex of three backticks, an optional alphabetic tag, a newline, a lazily
captured body, a newline and three closing backticks over the raw response,
take the first match, and otherwise fall back to stripping fence-like lines
from the trimmed raw text. -/

/-- Test for three backticks at the head of the text. -/
def hasFenceHead : List Char → Bool
  | a :: b :: c :: _ => a == bq && b == bq && c == bq
  | _ => false

/-- Test for a newline followed by three backticks at the head of the text:
the closing delimiter the lazy body stops at. -/
def closeHead : List Char → Bool
  | d :: a :: b :: c :: _ => d == '\n' && a == bq && b == bq && c == bq
  | _ => false

/-- Lazy capture of the regex body: the shortest text after which a newline
and three backticks follow; fails when no closing delimiter exists. -/
def takeBody : List Char → Option (List Char)
  | [] => none
  | c :: tl => if closeHead (c :: tl) then some [] else (takeBody tl).map (fun b => c :: b)

/-- Attempt of the fenced-block regex at one position: three backticks, a
maximal run of ASCII letters, a newline, then the lazy body. -/
def fenceMatchAt (s : List Char) : Option (List Char) :=
  if hasFenceHead s then
    match (s.drop 3).dropWhile isAsciiAlpha with
    | d :: body0 => if d == '\n' then takeBody body0 else none
    | [] => none
  else none

/-- Python `re.search`: try the pattern at each position from the left and
return the first successful capture. -/
def findFence : List Char → Option (List Char)
  | [] => none
  | c :: tl =>
    match fenceMatchAt (c :: tl) with
    | some b => some b
    | none => findFence tl

/-- Fallback strip of a leading fence-like line: the regex anchored at the
start removing three backticks, a maximal ASCII-letter run, then maximal
whitespace (src/app.py line 200). -/
def dropLeadingFence (s : List Char) : List Char :=
  if hasFenceHead s then ((s.drop 3).dropWhile isAsciiAlpha).dropWhile pyIsSpace else s

/-- Fallback strip of a trailing fence: the end-anchored regex of three
backticks, which in Python also matches just before a final newline
(src/app.py line 201). -/
def dropTrailingFence (s : List Char) : List Char :=
  if hasFenceHead s.reverse then (s.reverse.drop 3).reverse
  else if closeHead s.reverse then (s.reverse.drop 4).reverse ++ ['\n']
  else s

/-- Code extraction from raw model output: first fenced-block match when one
exists (no warning), otherwise for non-empty text the trimmed raw text with
fence-like lines stripped and the non-fenced warning raised, otherwise the
empty result.  The returned Bool is the warning flag. -/
def extractCode (raw : List Char) : List Char × Bool :=
  match findFence raw with
  | some body => (pyStrip body, false)
  | none =>
    if raw.isEmpty then ([], false)
    else (pyStrip (dropTrailingFence (dropLeadingFence (pyStrip raw))), true)

/-- Occurrence of three consecutive backticks anywhere in the text. -/
def hasFence : List Char → Bool
  | [] => false
  | c :: tl => hasFenceHead (c :: tl) || hasFence tl

/-- Occurrence of a newline followed by three backticks anywhere in the text. -/
def hasClose : List Char → Bool
  | [] => false
  | c :: tl => closeHead (c :: tl) || hasClose tl

theorem takeBody_closes (body post : List Char) (h : hasClose body = false) :
    takeBody (body ++ '\n' :: bq :: bq :: bq :: post) = some body := by
  induction body with
  | nil => simp [takeBody, closeHead]
  | cons c tl ih =>
    rw [hasClose, Bool.or_eq_false_iff] at h
    have hch : closeHead (c :: (tl ++ '\n' :: bq :: bq :: bq :: post)) = false := by
      rcases tl with _ | ⟨x, _ | ⟨y, _ | ⟨z, r⟩⟩⟩
      · simp [closeHead, bq]
      · simp [closeHead, bq]
      · simp [closeHead, bq]
      · simpa [closeHead] using h.1
    rw [List.cons_append, takeBody, if_neg (by simp [hch]), ih h.2]
    rfl

theorem fenceMatchAt_opening (lang rest : List Char) (h : lang.all isAsciiAlpha = true) :
    fenceMatchAt (bq :: bq :: bq :: (lang ++ '\n' :: rest)) = takeBody rest := by
  have hdrop : (lang ++ '\n' :: rest).dropWhile isAsciiAlpha = '\n' :: rest := by
    rw [List.dropWhile_append_of_pos (by simpa [List.all_eq_true] using h)]
    rw [List.dropWhile_cons]
    simp [isAsciiAlpha]
  simp [fenceMatchAt, hasFenceHead, hdrop]

theorem fenceMatchAt_none (s : List Char) (h : hasFenceHead s = false) :
    fenceMatchAt s = none := by
  simp [fenceMatchAt, h]

theorem hasFenceHead_pad (c : Char) (l r : List Char) :
    hasFenceHead (c :: (l ++ bq :: bq :: r)) = hasFenceHead (c :: (l ++ [bq, bq])) := by
  rcases l with _ | ⟨x, _ | ⟨y, t⟩⟩ <;> simp [hasFenceHead]

theorem findFence_skip (pre r' : List Char) (h : hasFence (pre ++ [bq, bq]) = false) :
    findFence (pre ++ (bq :: bq :: r')) = findFence (bq :: bq :: r') := by
  induction pre with
  | nil => rfl
  | cons p pre' ih =>
    rw [List.cons_append, hasFence, Bool.or_eq_false_iff] at h
    have hh : hasFenceHead (p :: (pre' ++ (bq :: bq :: r'))) = false := by
      rw [hasFenceHead_pad]
      exact h.1
    rw [List.cons_append, findFence, fenceMatchAt_none _ hh]
    exact ih h.2

/-- C1: a response that contains a fenced block (three backticks, an
alphabetic language tag or none, a newline, a body with no embedded closing
delimiter, a newline, three backticks), preceded by text holding no earlier
fence opener, extracts to exactly that body trimmed, with no warning; the
trailing text is unconstrained, so any further fenced blocks after the first
are ignored. -/
theorem extractCode_first_fenced_block
    (pre lang body post : List Char)
    (hlang : lang.all isAsciiAlpha = true)
    (hpre : hasFence (pre ++ [bq, bq]) = false)
    (hbody : hasClose body = false) :
    extractCode (pre ++ (bq :: bq :: bq :: (lang ++ '\n' :: (body ++ '\n' :: bq :: bq :: bq :: post))))
      = (pyStrip body, false) := by
  have hmatch : fenceMatchAt (bq :: bq :: bq :: (lang ++ '\n' :: (body ++ '\n' :: bq :: bq :: bq :: post)))
      = some body := by
    rw [fenceMatchAt_opening _ _ hlang, takeBody_closes _ _ hbody]
  have hfind : findFence (pre ++ (bq :: bq :: bq :: (lang ++ '\n' :: (body ++ '\n' :: bq :: bq :: bq :: post))))
      = some body := by
    rw [findFence_skip _ _ hpre, findFence, hmatch]
  rw [extractCode, hfind]

/-- C1 witness: a concrete response with prose before the block and a second
fenced block after it extracts to the first body. -/
theorem extractCode_first_fenced_block_witness :
    extractCode ("Here is the code:\n".toList ++ (bq :: bq :: bq :: ("hcl".toList ++ '\n' :: (" resource x ".toList ++ '\n' :: bq :: bq :: bq :: "\n```\nsecond\n```".toList))))
      = ("resource x".toList, false) :=
  (extractCode_first_fenced_block "Here is the code:\n".toList "hcl".toList
    " resource x ".toList "\n```\nsecond\n```".toList
    (by decide) (by decide) (by decide)).trans (by decide)

theorem hasFenceHead_ext (l r : List Char) (h : hasFenceHead l = true) :
    hasFenceHead (l ++ r) = true := by
  rcases l with _ | ⟨a, _ | ⟨b, _ | ⟨c, t⟩⟩⟩ <;> simp_all [hasFenceHead]

theorem hasFence_append_left (l r : List Char) (h : hasFence l = true) :
    hasFence (l ++ r) = true := by
  induction l with
  | nil => simp [hasFence] at h
  | cons c tl ih =>
    rw [hasFence, Bool.or_eq_true] at h
    rw [List.cons_append, hasFence, Bool.or_eq_true]
    rcases h with h | h
    · exact Or.inl (by simpa using hasFenceHead_ext (c :: tl) r h)
    · exact Or.inr (ih h)

theorem hasFence_append_right (l r : List Char) (h : hasFence r = true) :
    hasFence (l ++ r) = true := by
  induction l with
  | nil => simpa using h
  | cons c tl ih =>
    rw [List.cons_append, hasFence, Bool.or_eq_true]
    exact Or.inr ih

theorem hasFence_append_false (l r : List Char) (h : hasFence (l ++ r) = false) :
    hasFence l = false ∧ hasFence r = false := by
  constructor
  · by_contra hb
    rw [hasFence_append_left l r (by simpa using hb)] at h
    cases h
  · by_contra hb
    rw [hasFence_append_right l r (by simpa using hb)] at h
    cases h

theorem hasFence_head_false (s : List Char) (h : hasFence s = false) :
    hasFenceHead s = false := by
  cases s with
  | nil => rfl
  | cons c tl =>
    rw [hasFence, Bool.or_eq_false_iff] at h
    exact h.1

theorem findFence_none_of_no_fence (l : List Char) (h : hasFence l = false) :
    findFence l = none := by
  induction l with
  | nil => rfl
  | cons c tl ih =>
    rw [hasFence, Bool.or_eq_false_iff] at h
    rw [findFence, fenceMatchAt_none _ h.1]
    exact ih h.2

theorem hasFence_trimL (s : List Char) (h : hasFence s = false) :
    hasFence (trimL s) = false := by
  have hdec : s.takeWhile pyIsSpace ++ trimL s = s := List.takeWhile_append_dropWhile pyIsSpace s
  rw [← hdec] at h
  exact (hasFence_append_false _ _ h).2

theorem hasFence_trimR (s : List Char) (h : hasFence s = false) :
    hasFence (trimR s) = false := by
  have hdec : s.reverse.takeWhile pyIsSpace ++ s.reverse.dropWhile pyIsSpace = s.reverse :=
    List.takeWhile_append_dropWhile pyIsSpace s.reverse
  have hs : s = trimR s ++ (s.reverse.takeWhile pyIsSpace).reverse := by
    rw [trimR, ← List.reverse_append, hdec, List.reverse_reverse]
  rw [hs] at h
  exact (hasFence_append_false _ _ h).1

theorem hasFence_pyStrip (s : List Char) (h : hasFence s = false) :
    hasFence (pyStrip s) = false :=
  hasFence_trimR _ (hasFence_trimL _ h)

theorem dropLeadingFence_id (s : List Char) (h : hasFenceHead s = false) :
    dropLeadingFence s = s := by
  simp [dropLeadingFence, h]

theorem dropTrailingFence_id (s : List Char) (h : hasFence s = false) :
    dropTrailingFence s = s := by
  have h1 : hasFenceHead s.reverse = false := by
    by_contra hb
    have hb' : hasFenceHead s.reverse = true := by simpa using hb
    rcases hsr : s.reverse with _ | ⟨a, _ | ⟨b, _ | ⟨c, t⟩⟩⟩ <;> rw [hsr] at hb'
    · simp [hasFenceHead] at hb'
    · simp [hasFenceHead] at hb'
    · simp [hasFenceHead] at hb'
    · obtain ⟨⟨ha, hbb⟩, hc⟩ : (a = bq ∧ b = bq) ∧ c = bq := by
        simpa [hasFenceHead] using hb'
      have hs : s = t.reverse ++ [bq, bq, bq] := by
        rw [← List.reverse_reverse s, hsr, ha, hbb, hc]
        simp
      rw [hs, hasFence_append_right _ _ (by decide)] at h
      cases h
  have h2 : closeHead s.reverse = false := by
    by_contra hb
    have hb' : closeHead s.reverse = true := by simpa using hb
    rcases hsr : s.reverse with _ | ⟨d, _ | ⟨a, _ | ⟨b, _ | ⟨c, t⟩⟩⟩⟩ <;> rw [hsr] at hb'
    · simp [closeHead] at hb'
    · simp [closeHead] at hb'
    · simp [closeHead] at hb'
    · simp [closeHead] at hb'
    · obtain ⟨⟨⟨hd, ha⟩, hbb⟩, hc⟩ : ((d = '\n' ∧ a = bq) ∧ b = bq) ∧ c = bq := by
        simpa [closeHead] using hb'
      have hs : s = t.reverse ++ [bq, bq, bq, '\n'] := by
        rw [← List.reverse_reverse s, hsr, hd, ha, hbb, hc]
        simp
      rw [hs, hasFence_append_right _ _ (by decide)] at h
      cases h
  simp [dropTrailingFence, h1, h2]

theorem dropWhile_dropWhile (p : Char → Bool) (l : List Char) :
    (l.dropWhile p).dropWhile p = l.dropWhile p := by
  induction l with
  | nil => rfl
  | cons a t ih =>
    cases hpa : p a <;> simp [List.dropWhile_cons, hpa, ih]

theorem dropWhile_length_le (p : Char → Bool) (l : List Char) :
    (l.dropWhile p).length ≤ l.length := by
  induction l with
  | nil => simp
  | cons a t ih =>
    rw [List.dropWhile_cons]
    cases hpa : p a
    · simp
    · simpa using Nat.le_succ_of_le ih

theorem trimL_trimR (u : List Char) (hu : trimL u = u) :
    trimL (trimR u) = trimR u := by
  rcases htr : trimR u with _ | ⟨a, t'⟩
  · rfl
  · have hdec : u.reverse.takeWhile pyIsSpace ++ u.reverse.dropWhile pyIsSpace = u.reverse :=
      List.takeWhile_append_dropWhile pyIsSpace u.reverse
    have hs : u = trimR u ++ (u.reverse.takeWhile pyIsSpace).reverse := by
      rw [trimR, ← List.reverse_append, hdec, List.reverse_reverse]
    have hpa : pyIsSpace a = false := by
      by_contra hb
      have hb' : pyIsSpace a = true := by simpa using hb
      rw [hs, htr] at hu
      rw [List.cons_append, trimL, List.dropWhile_cons, hb'] at hu
      simp only [if_true] at hu
      have hlen := dropWhile_length_le pyIsSpace (t' ++ (u.reverse.takeWhile pyIsSpace).reverse)
      rw [hu] at hlen
      simp at hlen
    simp [trimL, List.dropWhile_cons, hpa]

theorem trimR_trimR (v : List Char) : trimR (trimR v) = trimR v := by
  rw [trimR, trimR, List.reverse_reverse, dropWhile_dropWhile]

theorem pyStrip_idem (s : List Char) : pyStrip (pyStrip s) = pyStrip s := by
  rw [pyStrip, pyStrip]
  rw [trimL_trimR (trimL s) (dropWhile_dropWhile pyIsSpace s), trimR_trimR]

/-- C2 counterexample: on the fence-free text hello, the fallback branch runs,
the text comes back trimmed and unchanged, yet the non-fenced warning is
raised even though stripping changed nothing — the code warns unconditionally
in the fallback branch. -/
theorem extractCode_warns_without_change :
    extractCode ("hello".toList) = ("hello".toList, true) := by decide

/-- C2 (amended): for every non-empty response text with no run of three
backticks anywhere, extraction returns the trimmed input unchanged, but the
non-fenced warning is always raised on this path, whether or not the
fence-stripping changed the content. -/
theorem extractCode_no_fence_markers (raw : List Char)
    (hne : raw ≠ []) (hnf : hasFence raw = false) :
    extractCode raw = (pyStrip raw, true) := by
  have hfind : findFence raw = none := findFence_none_of_no_fence raw hnf
  have hstrip : hasFence (pyStrip raw) = false := hasFence_pyStrip raw hnf
  have h1 : dropLeadingFence (pyStrip raw) = pyStrip raw :=
    dropLeadingFence_id _ (hasFence_head_false _ hstrip)
  have h2 : dropTrailingFence (pyStrip raw) = pyStrip raw :=
    dropTrailingFence_id _ hstrip
  have hemp : raw.isEmpty = false := by
    cases raw
    · exact absurd rfl hne
    · rfl
  rw [extractCode, hfind, hemp]
  simp only [Bool.false_eq_true, if_false, h1, h2, pyStrip_idem]

/-- C2 witness: a concrete fence-free text, padded with whitespace, comes back
trimmed with the warning flag set. -/
theorem extractCode_no_fence_markers_witness :
    extractCode ("  resource x  ".toList) = ("resource x".toList, true) :=
  (extractCode_no_fence_markers ("  resource x  ".toList)
    (by decide) (by decide)).trans (by decide)

/-- Input of the spec example for C3: an opening fence with a non-breaking
space between the backticks and the language tag. -/
def c3Input : List Char :=
  [bq, bq, bq, nbsp] ++ "hcl\n resource \"x\" \x7b\x7d\n```".toList

/-- C3 counterexample: with a non-breaking space inside the opening fence the
fenced-block regex does not match, so extraction does not return the body the
spec promises — no whitespace normalization exists in the code. -/
theorem extractCode_nbsp_refuted :
    (extractCode c3Input).1 ≠ "resource \"x\" \x7b\x7d".toList := by decide

/-- C3 (amended): no whitespace normalization is performed before matching; a
non-breaking space inside the opening fence makes the fenced-block pattern
fail, and the input falls through to the fallback, which strips the three
backticks and the non-breaking space but keeps the language tag, yielding the
tag-prefixed text with the non-fenced warning raised. -/
theorem extractCode_nbsp_fallback :
    extractCode c3Input = ("hcl\n resource \"x\" \x7b\x7d".toList, true) := by decide

/-! Session state and action handlers.  The five session fields of
src/app.py lines 112-121 and the three button handlers are embedded as pure
state transformers; the single chat-completion call of each handler is an
oracle indexed by attempt number, of which the code consults index 0 only. -/

/-- Per-session state fields of src/app.py lines 112-121. -/
structure SessionState where
  terraform_code : List Char
  validation_result : List Char
  has_errors : Bool
  validated : Bool
  raw_response_debug : List Char
deriving DecidableEq

/-- Completion object as seen by the handlers: the message content when
choices, message and content are all present, and none otherwise. -/
structure Completion where
  content? : Option (List Char)
deriving DecidableEq

/-- Outcome of one chat-completion call: a completion object, an
authentication exception, or any other exception with its message. -/
inductive TransportOutcome where
  | completed (comp : Completion)
  | authFailure
  | failure (emsg : List Char)
deriving DecidableEq

/-- Debug text stored when the completion object is empty or malformed. -/
def apiEmptyMsg : List Char := "API returned an empty or malformed completion object.".toList

/-- Debug text stored on an authentication exception. -/
def authDbgMsg : List Char := "Authentication failed. Check your API key.".toList

/-- Debug text stored on any other exception. -/
def genErrDbgMsg (m : List Char) : List Char := "General API communication error: ".toList ++ m

/-- Sentinel draft stored when the model returned no content. -/
def noContentSentinel : List Char := "# AI returned no content.".toList

/-- Result text stored when the model returned no content. -/
def failedGenMsg : List Char := "Failed to generate code.".toList

/-- Placeholder draft from src/app.py line 113, parametric in the provider. -/
def placeholderDraft (provider : List Char) : List Char :=
  "# Describe your ".toList ++ provider ++ " infrastructure above and click \"Generate with AI\"".toList

/-- Response text the generate handler works on: the content when truthy,
otherwise the empty string (src/app.py lines 180-186). -/
def responseOf (comp : Completion) : List Char :=
  match comp.content? with
  | some c => if c.isEmpty then [] else c
  | none => []

/-- Debug text stored by src/app.py lines 183/186 before extraction. -/
def debugOf (comp : Completion) : List Char :=
  match comp.content? with
  | some c => if c.isEmpty then apiEmptyMsg else c
  | none => apiEmptyMsg

/-- State produced by the generate handler from a completion object
(src/app.py lines 180-209), with the warning flag. -/
def generateFrom (s : SessionState) (comp : Completion) : SessionState × Bool :=
  let rc := responseOf comp
  match findFence rc with
  | some body =>
      ({ s with terraform_code := pyStrip body, validation_result := [],
                has_errors := false, validated := false, raw_response_debug := [] }, false)
  | none =>
      if rc.isEmpty then
        ({ s with terraform_code := noContentSentinel, validation_result := failedGenMsg,
                  has_errors := true, validated := false,
                  raw_response_debug := debugOf comp }, false)
      else
        ({ s with terraform_code := pyStrip (dropTrailingFence (dropLeadingFence (pyStrip rc))),
                  validation_result := [], has_errors := false, validated := false,
                  raw_response_debug := debugOf comp }, true)

/-- Result of one run of the generate handler: the next state, the warning
flag, and how many transport calls were made. -/
structure GenResult where
  state : SessionState
  warned : Bool
  transportCalls : Nat
deriving DecidableEq

/-- Generate handler (src/app.py lines 148-217): clears the debug field,
issues the single chat-completion call, and either extracts code or records
the exception; there is no retry loop, so only index 0 of the transport
oracle is ever consulted and exactly one call is made. -/
def generateHandler (s : SessionState) (transport : Nat → TransportOutcome) : GenResult :=
  let s0 : SessionState := { s with raw_response_debug := [] }
  match transport 0 with
  | .completed comp =>
      { state := (generateFrom s0 comp).1, warned := (generateFrom s0 comp).2, transportCalls := 1 }
  | .authFailure =>
      { state := { s0 with raw_response_debug := authDbgMsg }, warned := false, transportCalls := 1 }
  | .failure m =>
      { state := { s0 with raw_response_debug := genErrDbgMsg m }, warned := false, transportCalls := 1 }

/-- Result text stored after a correction attempt. -/
def correctedMsg : List Char := "🔧 AI has attempted to correct the code. Please validate again.".toList

/-- Correct handler (src/app.py lines 254-304): extracts code from the single
completion and resets the verdict; exceptions leave the state unchanged. -/
def correctHandler (s : SessionState) (t : TransportOutcome) : SessionState × Bool :=
  match t with
  | .completed comp =>
    let rc := responseOf comp
    match findFence rc with
    | some body =>
        ({ s with terraform_code := pyStrip body,
                  validation_result := correctedMsg, has_errors := false, validated := false }, false)
    | none =>
        ({ s with terraform_code := pyStrip (dropTrailingFence (dropLeadingFence (pyStrip rc))),
                  validation_result := correctedMsg, has_errors := false, validated := false }, true)
  | .authFailure => (s, false)
  | .failure _ => (s, false)

/-- User edit path (src/app.py lines 137-142): the editor widget assigns the
edited text to the draft field and touches nothing else. -/
def userEditHandler (s : SessionState) (newText : List Char) : SessionState :=
  { s with terraform_code := newText }

/-! Validator runner.  Lines 219-250 of src/app.py write the draft to
main.tf in the working directory, run the init subcommand, and on success the
validate subcommand, surfacing stderr on failure. -/

/-- Exit code and standard-error text of one external process run. -/
structure ProcResult where
  exitCode : Int
  errText : List Char
deriving DecidableEq

/-- Outcome of the validate button: the content of main.tf after the run, the
verdict fields, and whether the validate subcommand was invoked at all. -/
structure ValidateOutcome where
  mainTf : Option (List Char)
  validation_result : List Char
  has_errors : Bool
  validated : Bool
  validateRan : Bool
deriving DecidableEq

/-- Message head of src/app.py line 239 for a failing init step. -/
def initErrHead : List Char := "An error occurred during `terraform init`:\n".toList

/-- Success message of src/app.py line 246. -/
def validateOkMsg : List Char := "✅ Validation Successful: The configuration is valid.".toList

/-- Materialization of the draft: makedirs with exist-ok plus an open in
write mode always leave main.tf holding exactly the draft, whatever the
directory held before. -/
def materializeMainTf (_priorMainTf : Option (List Char)) (code : List Char) :
    Option (List Char) :=
  some code

/-- Validate handler (src/app.py lines 228-250): materialize the file, run
init; a non-zero init exit reports init stderr under the init-error head and
skips validate; otherwise run validate and report success or its stderr. -/
def validateHandler (code : List Char) (priorMainTf : Option (List Char))
    (init_p val_p : ProcResult) : ValidateOutcome :=
  let file := materializeMainTf priorMainTf code
  if init_p.exitCode ≠ 0 then
    { mainTf := file, validation_result := initErrHead ++ init_p.errText,
      has_errors := true, validated := true, validateRan := false }
  else if val_p.exitCode = 0 then
    { mainTf := file, validation_result := validateOkMsg,
      has_errors := false, validated := true, validateRan := true }
  else
    { mainTf := file, validation_result := val_p.errText,
      has_errors := true, validated := true, validateRan := true }

/-- C6 counterexample: when init exits non-zero with stderr network
unreachable, the stored message starts with the literal init-error text of
the code, not with the initialize-failed text the claim states. -/
theorem validate_init_fail_message_refuted :
    ("initialize failed:".toList.isPrefixOf
      (validateHandler "x".toList none ⟨1, "network unreachable".toList⟩ ⟨0, []⟩).validation_result) = false ∧
    (validateHandler "x".toList none ⟨1, "network unreachable".toList⟩ ⟨0, []⟩).validation_result
      ≠ "initialize failed:\n".toList ++ "network unreachable".toList := by
  constructor
  · decide
  · decide

/-- C6 (amended): whenever the init step exits non-zero, the verdict fails,
its message is the literal text an error occurred during terraform init,
a newline, then the init stderr, and the validate subcommand is never
invoked in that run. -/
theorem validate_init_fail_behavior (code : List Char) (priorMainTf : Option (List Char))
    (init_p val_p : ProcResult) (h : init_p.exitCode ≠ 0) :
    (validateHandler code priorMainTf init_p val_p).has_errors = true ∧
    (validateHandler code priorMainTf init_p val_p).validation_result
      = initErrHead ++ init_p.errText ∧
    (validateHandler code priorMainTf init_p val_p).validateRan = false := by
  rw [validateHandler, if_pos h]
  exact ⟨rfl, rfl, rfl⟩

/-- C6 witness: concrete failing init run with stderr network unreachable. -/
theorem validate_init_fail_behavior_witness :
    (validateHandler "x".toList none ⟨1, "network unreachable".toList⟩ ⟨0, []⟩).has_errors = true ∧
    (validateHandler "x".toList none ⟨1, "network unreachable".toList⟩ ⟨0, []⟩).validation_result
      = initErrHead ++ "network unreachable".toList ∧
    (validateHandler "x".toList none ⟨1, "network unreachable".toList⟩ ⟨0, []⟩).validateRan = false :=
  validate_init_fail_behavior "x".toList none ⟨1, "network unreachable".toList⟩ ⟨0, []⟩ (by decide)

/-- C7: with init succeeding, the draft is materialized as the sole content
of main.tf (overwriting whatever was there), the validate subcommand runs,
exit code zero yields a passing verdict with the human-readable success
message, and a non-zero exit yields a failing verdict whose message is the
validate stderr verbatim. -/
theorem validate_pipeline_flow (code : List Char) (priorMainTf : Option (List Char))
    (init_p val_p : ProcResult) (h : init_p.exitCode = 0) :
    (validateHandler code priorMainTf init_p val_p).mainTf = some code ∧
    (validateHandler code priorMainTf init_p val_p).validateRan = true ∧
    (validateHandler code priorMainTf init_p val_p).validated = true ∧
    (val_p.exitCode = 0 →
      (validateHandler code priorMainTf init_p val_p).has_errors = false ∧
      (validateHandler code priorMainTf init_p val_p).validation_result = validateOkMsg) ∧
    (val_p.exitCode ≠ 0 →
      (validateHandler code priorMainTf init_p val_p).has_errors = true ∧
      (validateHandler code priorMainTf init_p val_p).validation_result = val_p.errText) := by
  rw [validateHandler, if_neg (by simp [h])]
  by_cases hv : val_p.exitCode = 0
  · rw [if_pos hv]
    exact ⟨rfl, rfl, rfl, fun _ => ⟨rfl, rfl⟩, fun hne => absurd hv hne⟩
  · rw [if_neg hv]
    exact ⟨rfl, rfl, rfl, fun h0 => absurd h0 hv, fun _ => ⟨rfl, rfl⟩⟩

/-- C7 witness: a concrete run with init succeeding and validate failing
overwrites main.tf with the draft and surfaces the validate stderr. -/
theorem validate_pipeline_flow_witness :
    (validateHandler "resource x".toList (some "old".toList) ⟨0, []⟩ ⟨1, "bad hcl".toList⟩).mainTf
      = some "resource x".toList ∧
    (validateHandler "resource x".toList (some "old".toList) ⟨0, []⟩ ⟨1, "bad hcl".toList⟩).validateRan = true ∧
    (validateHandler "resource x".toList (some "old".toList) ⟨0, []⟩ ⟨1, "bad hcl".toList⟩).has_errors = true ∧
    (validateHandler "resource x".toList (some "old".toList) ⟨0, []⟩ ⟨1, "bad hcl".toList⟩).validation_result
      = "bad hcl".toList := by
  have h := validate_pipeline_flow "resource x".toList (some "old".toList)
    ⟨0, []⟩ ⟨1, "bad hcl".toList⟩ (by decide)
  exact ⟨h.1, h.2.1, (h.2.2.2.2 (by decide)).1, (h.2.2.2.2 (by decide)).2⟩

/-! Claims about the generate handler, the retry story and verdict resets. -/

/-- Transport oracle that raises on the first two attempts and would succeed
on the third, matching the retry scenario of the spec. -/
def failTwiceTransport : Nat → TransportOutcome :=
  fun n => if n < 2 then .failure "boom".toList
           else .completed ⟨some ("```\nresource ok\n```".toList)⟩

/-- Starting state used by the concrete handler scenarios. -/
def demoState : SessionState :=
  { terraform_code := "old code".toList, validation_result := [],
    has_errors := false, validated := false, raw_response_debug := [] }

/-- C8 counterexample: against a transport that fails twice and would succeed
on the third attempt, the generate handler makes exactly one call — not
three — and ends in a failed exchange with the draft unchanged and the
communication error recorded, because the code has no retry loop at all. -/
theorem generate_retry_refuted :
    (generateHandler demoState failTwiceTransport).transportCalls = 1 ∧
    (generateHandler demoState failTwiceTransport).transportCalls ≠ 3 ∧
    (generateHandler demoState failTwiceTransport).state.terraform_code
      = demoState.terraform_code ∧
    (generateHandler demoState failTwiceTransport).state.raw_response_debug
      = genErrDbgMsg "boom".toList := by
  refine ⟨by decide, by decide, by decide, by decide⟩

/-- C8 (amended): the generate handler performs exactly one transport attempt
with no backoff: its whole result is a function of the first attempt alone,
and when that single attempt raises a transport exception the handler
terminates at once with the draft unchanged and the error recorded. -/
theorem generate_single_attempt (s : SessionState) (transport : Nat → TransportOutcome)
    (m : List Char) :
    generateHandler s transport = generateHandler s (fun _ => transport 0) ∧
    (generateHandler s transport).transportCalls = 1 ∧
    (generateHandler s (fun _ => .failure m)).state.terraform_code = s.terraform_code ∧
    (generateHandler s (fun _ => .failure m)).state.raw_response_debug = genErrDbgMsg m := by
  refine ⟨rfl, ?_, rfl, rfl⟩
  rw [generateHandler]
  cases transport 0 <;> rfl

/-- Helper: every branch of the generate extraction leaves the state
not-validated. -/
theorem generateFrom_not_validated (s : SessionState) (comp : Completion) :
    (generateFrom s comp).1.validated = false := by
  rw [generateFrom]
  cases findFence (responseOf comp)
  · by_cases h : (responseOf comp).isEmpty <;> simp [h]
  · rfl

/-- Helper: the generate handler either leaves the draft untouched (the
exception paths) or ends not-validated. -/
theorem generateHandler_cases (s : SessionState) (t : Nat → TransportOutcome) :
    (generateHandler s t).state.validated = false ∨
    (generateHandler s t).state.terraform_code = s.terraform_code := by
  cases h0 : t 0 with
  | completed comp =>
    left
    simp [generateHandler, h0, generateFrom_not_validated]
  | authFailure =>
    right
    simp [generateHandler, h0]
  | failure m =>
    right
    simp [generateHandler, h0]

/-- Helper: the correct handler either leaves the draft untouched (the
exception paths) or ends not-validated. -/
theorem correctHandler_cases (s : SessionState) (tc : TransportOutcome) :
    (correctHandler s tc).1.validated = false ∨
    (correctHandler s tc).1.terraform_code = s.terraform_code := by
  cases tc with
  | completed comp =>
    left
    cases hf : findFence (responseOf comp) <;> simp [correctHandler, hf]
  | authFailure =>
    right
    rfl
  | failure m =>
    right
    rfl

/-- C9 counterexample: a direct user edit replaces the draft content but
leaves the previous verdict in place — the state still claims validated with
errors against content that was never validated. -/
theorem user_edit_keeps_stale_verdict :
    (userEditHandler
        { terraform_code := "a".toList, validation_result := "some error".toList,
          has_errors := true, validated := true, raw_response_debug := [] }
        "b".toList).terraform_code
      ≠ "a".toList ∧
    (userEditHandler
        { terraform_code := "a".toList, validation_result := "some error".toList,
          has_errors := true, validated := true, raw_response_debug := [] }
        "b".toList).validated = true := by
  refine ⟨by decide, rfl⟩

/-- C9 (amended): generation and correction reset the verdict to
not-validated whenever they replace the draft content, but a direct user
edit leaves the validated flag exactly as it was, so an edit after a
validation keeps the stale verdict. -/
theorem mutation_verdict_reset (s : SessionState) (t : Nat → TransportOutcome)
    (tc : TransportOutcome) (newText : List Char) :
    ((generateHandler s t).state.terraform_code ≠ s.terraform_code →
      (generateHandler s t).state.validated = false) ∧
    ((correctHandler s tc).1.terraform_code ≠ s.terraform_code →
      (correctHandler s tc).1.validated = false) ∧
    (userEditHandler s newText).validated = s.validated := by
  refine ⟨?_, ?_, rfl⟩
  · intro hch
    rcases generateHandler_cases s t with hv | hc
    · exact hv
    · exact absurd hc hch
  · intro hch
    rcases correctHandler_cases s tc with hv | hc
    · exact hv
    · exact absurd hc hch

/-- C9 witness: a generation that replaces the draft ends not-validated, a
correction that replaces the draft ends not-validated, and a user edit keeps
the previous validated flag, here true. -/
theorem mutation_verdict_reset_witness :
    (generateHandler
        { terraform_code := "a".toList, validation_result := "e".toList,
          has_errors := true, validated := true, raw_response_debug := [] }
        (fun _ => .completed ⟨some "```\nnew\n```".toList⟩)).state.validated = false ∧
    (correctHandler
        { terraform_code := "a".toList, validation_result := "e".toList,
          has_errors := true, validated := true, raw_response_debug := [] }
        (.completed ⟨some "```\nnew2\n```".toList⟩)).1.validated = false ∧
    (userEditHandler
        { terraform_code := "a".toList, validation_result := "e".toList,
          has_errors := true, validated := true, raw_response_debug := [] }
        "b".toList).validated = true := by
  have h := mutation_verdict_reset
    { terraform_code := "a".toList, validation_result := "e".toList,
      has_errors := true, validated := true, raw_response_debug := [] }
    (fun _ => .completed ⟨some "```\nnew\n```".toList⟩)
    (.completed ⟨some "```\nnew2\n```".toList⟩)
    "b".toList
  exact ⟨h.1 (by decide), h.2.1 (by decide), h.2.2.trans rfl⟩

/-- Guard of the validate button (src/app.py line 220): disabled when the
draft is empty or begins with a hash. -/
def validateDisabled (code : List Char) : Bool :=
  code.isEmpty ||
    (match code with
     | [] => false
     | c :: _ => c == '#')

/-- C10: the validate action is disabled for the empty draft and for any
draft whose first character is a hash; both the provider placeholder (for
every provider text) and the no-content sentinel begin with a hash, so
neither can ever be submitted for validation. -/
theorem validate_disabled_guard (code provider : List Char) :
    validateDisabled [] = true ∧
    validateDisabled ('#' :: code) = true ∧
    validateDisabled (placeholderDraft provider) = true ∧
    validateDisabled noContentSentinel = true := by
  refine ⟨rfl, by simp [validateDisabled], ?_, by decide⟩
  have hph : placeholderDraft provider
      = '#' :: (" Describe your ".toList ++ provider
          ++ " infrastructure above and click \"Generate with AI\"".toList) := by
    rw [placeholderDraft]
    rfl
  rw [hph]
  simp [validateDisabled]

end TerraformAssistant

